import Mathlib

/-
Verification of the coffee knowledge-graph RAG pipeline
(`src/rag_engine.py`, `src/neo4j_client.py`, `src/gemini_client.py`,
`src/openrouter_client.py`) against its natural-language specification.

The pipeline is embedded shallowly: the LLM backend and the Neo4j store are
modelled as oracle functions supplied to the engine; an oracle result of
`Except.error e` models a raised Python exception whose `str` is `e`.
`RAGEngine.query` is translated branch by branch, together with a log of the
collaborator calls it performs, so that claims of the form "X is never
invoked" become statements about the log.
-/

namespace CoffeeRag

/-- A scalar value as it appears in a Neo4j result record: a string, an
integer, or Python `None` (Neo4j null, e.g. from `OPTIONAL MATCH`). -/
inductive Scalar where
  | s (v : String)
  | i (n : Int)
  | null
deriving DecidableEq, Repr

/-- A value of a result-record field, in the shapes produced by
`Neo4jClient.execute_query`: a scalar, a flat property mapping of a node or
relationship (converted from `_properties`), or a list of such mappings. -/
inductive Val where
  | scalar (x : Scalar)
  | map (fields : List (String × Scalar))
  | arr (elems : List (List (String × Scalar)))
deriving DecidableEq, Repr

/-- One result record: a Python dict (ordered, unique keys) from field name
to value, as built by `Neo4jClient.execute_query`. -/
abbrev Record := List (String × Val)

/-- Python `str.join`: `joinSep sep l` is the elements of `l` separated by
`sep` (empty for the empty list). -/
def joinSep (sep : String) : List String → String
  | [] => ""
  | [x] => x
  | x :: y :: t => x ++ sep ++ joinSep sep (y :: t)

/-- Python `repr` of a scalar (as used inside `str` of a dict): strings are
quoted, `None` prints as `None`. -/
def pyReprScalar : Scalar → String
  | .s v => "\x27" ++ v ++ "\x27"
  | .i n => toString n
  | .null => "None"

/-- Python `str` of a scalar (as used by an f-string): strings print
unquoted. -/
def pyStrScalar : Scalar → String
  | .s v => v
  | .i n => toString n
  | .null => "None"

/-- Python `str` of a flat property dict, in Python dict notation with quoted keys and string values. -/
def pyReprMap (fs : List (String × Scalar)) : String :=
  "\x7b" ++ joinSep ", " (fs.map fun kv => pyReprScalar (.s kv.1) ++ ": " ++ pyReprScalar kv.2) ++ "\x7d"

/-- Python `repr` of a record value. -/
def pyReprVal : Val → String
  | .scalar x => pyReprScalar x
  | .map fs => pyReprMap fs
  | .arr ms => "[" ++ joinSep ", " (ms.map pyReprMap) ++ "]"

/-- Python `str` of a record value, as interpolated by an f-string. -/
def pyStrVal : Val → String
  | .scalar x => pyStrScalar x
  | .map fs => pyReprMap fs
  | .arr ms => "[" ++ joinSep ", " (ms.map pyReprMap) ++ "]"

/-- Python `str` of a whole record (dict of field name to value). -/
def pyReprRecord (r : Record) : String :=
  "\x7b" ++ joinSep ", " (r.map fun kv => pyReprScalar (.s kv.1) ++ ": " ++ pyReprVal kv.2) ++ "\x7d"

/-- One iteration of the loop in `RAGEngine._format_record`
(src/rag_engine.py lines 177-187): a dict value prefers its `name` then its
`description` entry, else is stringified whole; a `None` value is skipped
(`elif value is not None`); any other value is stringified. -/
def format_record_part (kv : String × Val) : Option String :=
  match kv.2 with
  | .map fs =>
      some (kv.1 ++ ": " ++
        (match List.lookup "name" fs with
         | some v => pyStrScalar v
         | none =>
           match List.lookup "description" fs with
           | some v => pyStrScalar v
           | none => pyReprMap fs))
  | .scalar .null => none
  | v => some (kv.1 ++ ": " ++ pyStrVal v)

/-- `RAGEngine._format_record` (src/rag_engine.py lines 174-189): joins the
rendered fields with `", "`, falling back to `str(record)` when no field was
rendered. -/
def format_record (r : Record) : String :=
  let parts := r.filterMap format_record_part
  if parts.isEmpty then pyReprRecord r else joinSep ", " parts

/-- `RAGEngine._format_results_simple` (src/rag_engine.py lines 145-172):
the deterministic fallback formatter. A single record with a single field
renders as `Result: <value>`; otherwise each record is rendered by
`_format_record`, prefixed by its 1-based index and a period when there is
more than one record, and the lines are joined with newlines. -/
def format_results_simple (results : List Record) : String :=
  if results.isEmpty then "No results found."
  else if results.length == 1 && (results.headD []).length == 1 then
    "Result: " ++ pyStrVal ((results.headD []).headD ("", Val.scalar Scalar.null)).2
  else
    joinSep "\n" (results.enum.map fun p =>
      if 1 < results.length then toString (p.1 + 1) ++ ". " ++ format_record p.2
      else format_record p.2)

/-- The answer text of every non-connection failure branch of
`RAGEngine.query` (src/rag_engine.py lines 84, 97, 130, 140). -/
def failAnswer : String := "I’m not able to answer that right now."

/-- The answer text of the not-connected guard (src/rag_engine.py line 69). -/
def notConnectedAnswer : String := "Error: Not connected to database. Please ensure Neo4j is running."

/-- The fixed message substituted when the executed query returned no rows
(src/rag_engine.py line 107). -/
def noResultsAnswer : String := "I couldn\x27t find any results for your question. The query returned no data."

/-- Python f-string interpolation of an `Optional[str]`: `None` prints as
`None` (used by `f"Invalid Cypher: {error_msg}"`, src/rag_engine.py line 99). -/
def optText : Option String → String
  | some s => s
  | none => "None"

/-- The dictionary returned by `RAGEngine.query`
(src/rag_engine.py docstring, lines 56-62). -/
structure QueryOutcome where
  question : String
  cypher : Option String
  results : Option (List Record)
  answer : String
  success : Bool
  error : Option String
deriving DecidableEq, Repr

/-- A collaborator call performed by `RAGEngine.query`, in order:
a Translator call (`llm_client.generate_cypher`, recording its input
question), a Validator call (`neo4j_client.validate_query`), an Executor
call (`neo4j_client.execute_query`), or a Formatter call
(`llm_client.format_results`). -/
inductive Ev where
  | tr (input : String)
  | val (cypher : String)
  | ex (cypher : String)
  | fmt (question : String)
deriving DecidableEq, Repr

/-- Whether an event is a Translator call. -/
def Ev.isTranslate : Ev → Bool
  | .tr _ => true
  | _ => false

/-- Whether an event is a Validator call. -/
def Ev.isValidate : Ev → Bool
  | .val _ => true
  | _ => false

/-- Whether an event is an Executor call. -/
def Ev.isExecute : Ev → Bool
  | .ex _ => true
  | _ => false

/-- Whether an event is a Formatter call. -/
def Ev.isFormat : Ev → Bool
  | .fmt _ => true
  | _ => false

/-- `RAGEngine.query` (src/rag_engine.py lines 48-143), instrumented with
the list of collaborator calls it makes.

Oracles model the collaborators for this one invocation:
* `T` — the result of `llm_client.generate_cypher(user_question)`:
  `Except.error e` models a raised exception, `Except.ok none` models the
  `None` return, `Except.ok (some cy)` a returned string (possibly empty,
  which the engine treats as no query via `if not cypher_query`).
* `V` — `neo4j_client.validate_query`, returning `(is_valid, error_msg)`.
* `E` — `neo4j_client.execute_query`; `Except.error e` models a raised
  exception caught by the engine handlers (lines 124-143).
* `F` — `llm_client.format_results`; `Except.ok none` or `Except.ok (some "")`
  trigger the deterministic fallback (`if not answer`, line 111).

The handlers on lines 124-143 set `cypher` to the generated query when the
exception arose after generation (`"cypher_query" in locals()`) and `None`
otherwise, always set `results` to `None`, and use `str(e)` as the error. -/
def queryL (T : Except String (Option String))
    (V : String → Except String (Bool × Option String))
    (E : String → Except String (List Record))
    (F : String → List Record → Except String (Option String))
    (connected : Bool) (q : String) : QueryOutcome × List Ev :=
  if connected = false then
    (⟨q, none, none, notConnectedAnswer, false, some "Database not connected"⟩, [])
  else
    match T with
    | .error e => (⟨q, none, none, failAnswer, false, some e⟩, [.tr q])
    | .ok oc =>
      match oc with
      | none =>
        (⟨q, none, none, failAnswer, false, some "Failed to generate Cypher query"⟩, [.tr q])
      | some cy =>
        if cy = "" then
          (⟨q, none, none, failAnswer, false, some "Failed to generate Cypher query"⟩, [.tr q])
        else
          match V cy with
          | .error e => (⟨q, some cy, none, failAnswer, false, some e⟩, [.tr q, .val cy])
          | .ok (false, msg) =>
            (⟨q, some cy, none, failAnswer, false, some ("Invalid Cypher: " ++ optText msg)⟩,
              [.tr q, .val cy])
          | .ok (true, _) =>
            match E cy with
            | .error e => (⟨q, some cy, none, failAnswer, false, some e⟩, [.tr q, .val cy, .ex cy])
            | .ok rs =>
              if rs.isEmpty then
                (⟨q, some cy, some rs, noResultsAnswer, true, none⟩, [.tr q, .val cy, .ex cy])
              else
                match F q rs with
                | .error e =>
                  (⟨q, some cy, none, failAnswer, false, some e⟩, [.tr q, .val cy, .ex cy, .fmt q])
                | .ok ans =>
                  let a := match ans with
                    | some s => if s = "" then format_results_simple rs else s
                    | none => format_results_simple rs
                  (⟨q, some cy, some rs, a, true, none⟩, [.tr q, .val cy, .ex cy, .fmt q])

/-- `RAGEngine.query`: the outcome returned to the caller. -/
def query (T : Except String (Option String))
    (V : String → Except String (Bool × Option String))
    (E : String → Except String (List Record))
    (F : String → List Record → Except String (Option String))
    (connected : Bool) (q : String) : QueryOutcome :=
  (queryL T V E F connected q).1

/-- An error raised by the Neo4j driver inside a session:
`exceptions.CypherSyntaxError`, `exceptions.ClientError`, or anything
else. -/
inductive DbErr where
  | badCypher (msg : String)
  | clientErr (msg : String)
  | otherErr (msg : String)
deriving DecidableEq, Repr

/-- Python `str` of a driver error. -/
def DbErr.message : DbErr → String
  | .badCypher m => m
  | .clientErr m => m
  | .otherErr m => m

/-- Python `str` of the `AttributeError` raised when `self._driver` is
`None` and `.session()` is accessed. -/
def attributeErrorText : String :=
  "\x27NoneType\x27 object has no attribute \x27session\x27"

/-- `Neo4jClient.execute_query` (src/neo4j_client.py lines 36-77), with the
driver modelled as `Option run` (`None` before `connect()`), and `run` the
session run of the given query (already converted to `Record` shape).
Raises `ConnectionError` when no driver; rewraps `CypherSyntaxError` as
`ValueError("Invalid Cypher query: ...")`; re-raises other errors. The
result is `Except`: `error` models a raised exception. -/
def execute_query (driver : Option (String → Except DbErr (List Record)))
    (q : String) : Except String (List Record) :=
  match driver with
  | none => Except.error "Not connected to Neo4j. Call connect() first."
  | some run =>
    match run q with
    | .ok recs => .ok recs
    | .error (.badCypher m) => .error ("Invalid Cypher query: " ++ m)
    | .error e => .error e.message

/-- `Neo4jClient.validate_query` (src/neo4j_client.py lines 79-88): runs
`EXPLAIN {query}` in a session; every exception (including the
`AttributeError` when `_driver` is `None`) is caught and returned as
`(False, str(e))`; success returns `(True, None)`. It never raises, so its
Lean type is a plain pair. -/
def validate_query (driver : Option (String → Except DbErr Unit))
    (q : String) : Bool × Option String :=
  match driver with
  | none => (false, some attributeErrorText)
  | some run =>
    match run ("EXPLAIN " ++ q) with
    | .ok _ => (true, none)
    | .error e => (false, some e.message)

/-- Modelled from the spec (§4.5): the text rendered for one field value by
the reference fallback formatter — a composite (mapping) value prefers its
`name` sub-field, then its `description` sub-field, else the stringified
mapping; any other value is stringified. -/
def specValueText : Val → String
  | .map fs =>
      (match List.lookup "name" fs with
       | some v => pyStrScalar v
       | none =>
         match List.lookup "description" fs with
         | some v => pyStrScalar v
         | none => pyReprMap fs)
  | v => pyStrVal v

/-- Modelled from the spec (§4.5): one field rendered as `<field>: <value>`. -/
def specFieldLine (kv : String × Val) : String :=
  kv.1 ++ ": " ++ specValueText kv.2

/-- Modelled from the spec (§4.5), as literally worded: a record renders as
all of its fields joined comma-separated. -/
def specRecordLine (r : Record) : String :=
  joinSep ", " (r.map specFieldLine)

/-- Modelled from the spec (§4.5), as literally worded — the reference definition of claim C8 of the fallback formatter: a single record with a
single field renders as `Result: <value>`; otherwise each record renders
its fields joined comma-separated, prefixed by a 1-based index and a period
when there is more than one record. (Only meaningful on non-empty input.) -/
def specFallbackFormat (results : List Record) : String :=
  match results with
  | [r] =>
    match r with
    | [kv] => "Result: " ++ pyStrVal kv.2
    | _ => specRecordLine r
  | rs => joinSep "\n" (rs.enum.map fun p => toString (p.1 + 1) ++ ". " ++ specRecordLine p.2)

/-- The amended field renderer: a field whose value is null is omitted. -/
def specFieldLineSkip (kv : String × Val) : Option String :=
  match kv.2 with
  | .scalar .null => none
  | _ => some (specFieldLine kv)

/-- The amended record renderer: null-valued fields are omitted, and a
record none of whose fields were rendered falls back to its
stringification. -/
def specRecordLineSkip (r : Record) : String :=
  let parts := r.filterMap specFieldLineSkip
  if parts.isEmpty then pyReprRecord r else joinSep ", " parts

/-- The amended reference fallback formatter (claim C8 amended). -/
def specFallbackFormatAmended (results : List Record) : String :=
  match results with
  | [r] =>
    match r with
    | [kv] => "Result: " ++ pyStrVal kv.2
    | _ => specRecordLineSkip r
  | rs => joinSep "\n" (rs.enum.map fun p => toString (p.1 + 1) ++ ". " ++ specRecordLineSkip p.2)

/-- Whether a character list starts with the second list. -/
def startsWithList : List Char → List Char → Bool
  | _, [] => true
  | [], _ :: _ => false
  | a :: as, b :: bs => a == b && startsWithList as bs

/-- Whether the second character list occurs contiguously in the first. -/
def hasSubList : List Char → List Char → Bool
  | [], pat => pat.isEmpty
  | a :: t, pat => startsWithList (a :: t) pat || hasSubList t pat

/-- Whether `pat` occurs as a substring of `s`. -/
def strContainsText (s pat : String) : Bool :=
  hasSubList s.data pat.data

/-- A sample question (src/rag_engine.py line 199). -/
def q0 : String := "What coffees are from Italy?"

/-- Translator oracle: `generate_cypher` returned `None` (generation
failure). -/
def trFail : Except String (Option String) := Except.ok none

/-- Translator oracle: a candidate the store will reject. -/
def trBad : Except String (Option String) := Except.ok (some "BAD QUERY")

/-- Translator oracle: the out-of-scope sentinel that rule 11 of the Gemini
prompt (src/gemini_client.py line 65) instructs the model to return
verbatim for questions outside the coffee schema. -/
def trOut : Except String (Option String) := Except.ok (some "OUT_OF_SCOPE")

/-- Translator oracle: a well-formed candidate query. -/
def trGood : Except String (Option String) :=
  Except.ok (some "MATCH (c:Coffee) RETURN c.name")

/-- The rejection reason used by the rejecting validator oracle. -/
def badReason : String := "Invalid input BAD: expected a Cypher clause"

/-- Validator oracle rejecting every candidate with `badReason`. -/
def vaReject : String → Except String (Bool × Option String) :=
  fun _ => Except.ok (false, some badReason)

/-- Validator oracle accepting every candidate. -/
def vaAccept : String → Except String (Bool × Option String) :=
  fun _ => Except.ok (true, none)

/-- Executor oracle returning no rows. -/
def exEmpty : String → Except String (List Record) :=
  fun _ => Except.ok []

/-- Executor oracle returning one record. -/
def exOne : String → Except String (List Record) :=
  fun _ => Except.ok [[("name", Val.scalar (Scalar.s "Espresso"))]]

/-- Formatter oracle returning `None` (forces the deterministic fallback). -/
def fmtNone : String → List Record → Except String (Option String) :=
  fun _ _ => Except.ok none

/-- Session-run oracle for the Neo4j client returning one record. -/
def runEspresso : String → Except DbErr (List Record) :=
  fun _ => Except.ok [[("name", Val.scalar (Scalar.s "Espresso"))]]

/-- The input exhibiting the null-field divergence of the fallback
formatter: one record with a null-valued field and an integer field. -/
def c8Input : List Record :=
  [[("a", Val.scalar Scalar.null), ("b", Val.scalar (Scalar.i 1))]]

theorem append_ne_empty_left (a b : String) (h : a ≠ "") : a ++ b ≠ "" := by
  intro hc
  apply h
  have hd := congrArg String.data hc
  rw [String.data_append] at hd
  have ha : a.data = [] := (List.append_eq_nil.mp (by simpa using hd)).1
  cases a with
  | mk d =>
    have : d = [] := ha
    subst this
    rfl

theorem append_ne_empty_right (a b : String) (h : b ≠ "") : a ++ b ≠ "" := by
  intro hc
  apply h
  have hd := congrArg String.data hc
  rw [String.data_append] at hd
  have hb : b.data = [] := (List.append_eq_nil.mp (by simpa using hd)).2
  cases b with
  | mk d =>
    have : d = [] := hb
    subst this
    rfl

theorem joinSep_ne_empty (sep : String) (l : List String) (hne : l ≠ [])
    (h : ∀ p ∈ l, p ≠ "") : joinSep sep l ≠ "" := by
  match l with
  | [] => exact absurd rfl hne
  | [x] => simpa [joinSep] using h x (by simp)
  | x :: y :: t =>
    show x ++ sep ++ joinSep sep (y :: t) ≠ ""
    exact append_ne_empty_left _ _ (append_ne_empty_left _ _ (h x (by simp)))

theorem format_record_part_ne_empty (kv : String × Val) (p : String)
    (h : format_record_part kv = some p) : p ≠ "" := by
  obtain ⟨k, v⟩ := kv
  have base : ∀ s : String, k ++ ": " ++ s ≠ "" :=
    fun s => append_ne_empty_left _ _ (append_ne_empty_right k ": " (by decide))
  cases v with
  | scalar x =>
    cases x with
    | s w =>
      simp only [format_record_part, Option.some.injEq] at h
      exact h ▸ base _
    | i n =>
      simp only [format_record_part, Option.some.injEq] at h
      exact h ▸ base _
    | null => simp [format_record_part] at h
  | map fs =>
    simp only [format_record_part, Option.some.injEq] at h
    exact h ▸ base _
  | arr ms =>
    simp only [format_record_part, Option.some.injEq] at h
    exact h ▸ base _

theorem pyReprRecord_ne_empty (r : Record) : pyReprRecord r ≠ "" :=
  append_ne_empty_right _ _ (by decide)

theorem format_record_ne_empty (r : Record) : format_record r ≠ "" := by
  unfold format_record
  by_cases he : (r.filterMap format_record_part).isEmpty
  · simpa [he] using pyReprRecord_ne_empty r
  · have hne : r.filterMap format_record_part ≠ [] := by
      intro hc
      simp [hc] at he
    simp only [he, if_neg, Bool.false_eq_true, if_false]
    refine joinSep_ne_empty _ _ hne ?_
    intro p hp
    obtain ⟨kv, _, hkv⟩ := List.mem_filterMap.mp hp
    exact format_record_part_ne_empty kv p hkv

theorem format_results_simple_ne_empty (results : List Record)
    (h : results ≠ []) : format_results_simple results ≠ "" := by
  unfold format_results_simple
  have hie : results.isEmpty = false := by
    cases results with
    | nil => exact absurd rfl h
    | cons a t => rfl
  rw [hie]
  by_cases hc : (results.length == 1 && (results.headD []).length == 1) = true
  · simp only [hc, Bool.false_eq_true, if_false, if_true]
    exact append_ne_empty_left _ _ (by decide)
  · simp only [hc, Bool.false_eq_true, if_false]
    refine joinSep_ne_empty _ _ ?_ ?_
    · intro hmap
      rcases List.map_eq_nil_iff.mp hmap with henum
      cases results with
      | nil => exact absurd rfl h
      | cons a t => simp [List.enum] at henum
    · intro p hp
      obtain ⟨pr, _, hpr⟩ := List.mem_map.mp hp
      by_cases hl : 1 < results.length
      · rw [if_pos hl] at hpr
        exact hpr ▸ append_ne_empty_left _ _ (append_ne_empty_right _ ". " (by decide))
      · rw [if_neg hl] at hpr
        exact hpr ▸ format_record_ne_empty pr.2

theorem queryL_failure_shape (T : Except String (Option String))
    (V : String → Except String (Bool × Option String))
    (E : String → Except String (List Record))
    (F : String → List Record → Except String (Option String))
    (c : Bool) (q : String)
    (h : (queryL T V E F c q).1.success = false) :
    (queryL T V E F c q).1.results = none
    ∧ (queryL T V E F c q).1.error ≠ none
    ∧ ((queryL T V E F c q).1.answer = failAnswer
        ∨ (queryL T V E F c q).1.answer = notConnectedAnswer) := by
  cases c with
  | false => simp [queryL]
  | true =>
    unfold queryL at h ⊢
    rcases T with e | oc
    · simp
    rcases oc with _ | cy
    · simp
    by_cases hcy : cy = ""
    · simp [hcy]
    rcases hV : V cy with e | bm
    · simp [hcy, hV]
    rcases bm with ⟨b, m⟩
    cases b with
    | false => simp [hcy, hV]
    | true =>
      rcases hE : E cy with e | rs
      · simp [hcy, hV, hE]
      cases hrs : rs.isEmpty with
      | true => simp [hcy, hV, hE, hrs] at h
      | false =>
        rcases hF : F q rs with e | ans
        · simp [hcy, hV, hE, hrs, hF]
        · simp [hcy, hV, hE, hrs, hF] at h

theorem queryL_success_shape (T : Except String (Option String))
    (V : String → Except String (Bool × Option String))
    (E : String → Except String (List Record))
    (F : String → List Record → Except String (Option String))
    (c : Bool) (q : String)
    (h : (queryL T V E F c q).1.success = true) :
    (queryL T V E F c q).1.answer ≠ ""
    ∧ ∃ cy m, (queryL T V E F c q).1.cypher = some cy
        ∧ V cy = Except.ok (true, m) := by
  cases c with
  | false => simp [queryL] at h
  | true =>
    unfold queryL at h ⊢
    rcases T with e | oc
    · simp at h
    rcases oc with _ | cy
    · simp at h
    by_cases hcy : cy = ""
    · simp [hcy] at h
    rcases hV : V cy with e | bm
    · simp [hcy, hV] at h
    rcases bm with ⟨b, m⟩
    cases b with
    | false => simp [hcy, hV] at h
    | true =>
      rcases hE : E cy with e | rs
      · simp [hcy, hV, hE] at h
      cases hrs : rs.isEmpty with
      | true =>
        simp only [hcy, hV, hE, hrs]
        simp
        exact ⟨by decide, m, hV⟩
      | false =>
        have hrsne : rs ≠ [] := by
          intro hc
          simp [hc] at hrs
        rcases hF : F q rs with e | ans
        · simp [hcy, hV, hE, hrs, hF] at h
        rcases ans with _ | s
        · simp only [hcy, hV, hE, hrs, hF]
          simp
          exact ⟨format_results_simple_ne_empty rs hrsne, m, hV⟩
        by_cases hs : s = ""
        · simp only [hcy, hV, hE, hrs, hF, hs]
          simp
          exact ⟨format_results_simple_ne_empty rs hrsne, m, hV⟩
        · simp only [hcy, hV, hE, hrs, hF]
          simp [hs]
          exact ⟨m, hV⟩

theorem format_record_part_eq (kv : String × Val) :
    format_record_part kv = specFieldLineSkip kv := by
  obtain ⟨k, v⟩ := kv
  cases v with
  | scalar x => cases x <;> rfl
  | map fs => rfl
  | arr ms => rfl

theorem format_record_eq (r : Record) : format_record r = specRecordLineSkip r := by
  unfold format_record specRecordLineSkip
  rw [funext format_record_part_eq]

/-- Claim C10 (confirmed). When `connected` is false, `RAGEngine.query`
returns, for every choice of collaborator oracles, exactly the outcome
with `success = false`, error text `"Database not connected"`, no cypher,
no results and the fixed not-connected answer, and performs no collaborator
call at all (empty event log): the Translator, Validator and Executor are
never invoked. -/
theorem c10_not_connected (T : Except String (Option String))
    (V : String → Except String (Bool × Option String))
    (E : String → Except String (List Record))
    (F : String → List Record → Except String (Option String))
    (q : String) :
    queryL T V E F false q
      = (⟨q, none, none, notConnectedAnswer, false, some "Database not connected"⟩, []) := rfl

/-- Claim C7 (confirmed). When the accepted query executes to an empty result
sequence, the outcome is still a success, its answer is verbatim the fixed
no-results message, and the Formatter is never invoked (no format event in
the call log). -/
theorem c7_empty_results (T : Except String (Option String))
    (V : String → Except String (Bool × Option String))
    (E : String → Except String (List Record))
    (F : String → List Record → Except String (Option String))
    (q cy : String) (m : Option String)
    (hT : T = Except.ok (some cy)) (hcy : cy ≠ "")
    (hV : V cy = Except.ok (true, m)) (hE : E cy = Except.ok []) :
    (query T V E F true q).success = true
    ∧ (query T V E F true q).answer = noResultsAnswer
    ∧ (queryL T V E F true q).2.filter Ev.isFormat = [] := by
  subst hT
  refine ⟨?_, ?_, ?_⟩ <;> simp [query, queryL, hcy, hV, hE, Ev.isFormat, List.filter]

/-- Witness for C7 at a concrete run: a valid query returning no rows. -/
theorem c7_witness :
    (query trGood vaAccept exEmpty fmtNone true q0).success = true
    ∧ (query trGood vaAccept exEmpty fmtNone true q0).answer = noResultsAnswer
    ∧ (queryL trGood vaAccept exEmpty fmtNone true q0).2.filter Ev.isFormat = [] :=
  c7_empty_results trGood vaAccept exEmpty fmtNone q0
    "MATCH (c:Coffee) RETURN c.name" none rfl (by decide) rfl rfl

/-- Claim C4 (confirmed). Every success outcome carries a non-empty answer
and a cypher that the Validator accepted; every failure outcome carries no
result sequence. -/
theorem c4_outcome_invariant (T : Except String (Option String))
    (V : String → Except String (Bool × Option String))
    (E : String → Except String (List Record))
    (F : String → List Record → Except String (Option String))
    (c : Bool) (q : String) :
    ((query T V E F c q).success = true →
      (query T V E F c q).answer ≠ ""
      ∧ ∃ cy m, (query T V E F c q).cypher = some cy ∧ V cy = Except.ok (true, m))
    ∧ ((query T V E F c q).success = false → (query T V E F c q).results = none) :=
  ⟨fun h => queryL_success_shape T V E F c q h,
   fun h => (queryL_failure_shape T V E F c q h).1⟩

/-- Witness for C4: a successful run and a failing run, concretely. -/
theorem c4_witness :
    ((query trGood vaAccept exOne fmtNone true q0).answer ≠ ""
      ∧ ∃ cy m, (query trGood vaAccept exOne fmtNone true q0).cypher = some cy
          ∧ vaAccept cy = Except.ok (true, m))
    ∧ (query trFail vaAccept exOne fmtNone true q0).results = none :=
  ⟨(c4_outcome_invariant trGood vaAccept exOne fmtNone true q0).1 (by decide),
   (c4_outcome_invariant trFail vaAccept exOne fmtNone true q0).2 (by decide)⟩

/-- Claim C5 (confirmed). `RAGEngine.query` is a total function into
`QueryOutcome` even though every collaborator oracle may return
`Except.error` (a raised exception): no exception propagates to the
caller, and every failure outcome carries an error description. -/
theorem c5_failures_as_data (T : Except String (Option String))
    (V : String → Except String (Bool × Option String))
    (E : String → Except String (List Record))
    (F : String → List Record → Except String (Option String))
    (c : Bool) (q : String) :
    (query T V E F c q).success = false → (query T V E F c q).error ≠ none :=
  fun h => (queryL_failure_shape T V E F c q h).2.1

/-- Witness for C5 at a concrete failing run. -/
theorem c5_witness : (query trFail vaAccept exEmpty fmtNone true q0).error ≠ none :=
  c5_failures_as_data trFail vaAccept exEmpty fmtNone true q0 (by decide)

/-- Claim C9, counterexample. Two failure outcomes of `RAGEngine.query` carry
different answer texts: the not-connected guard answers with its own fixed
message, every other failure with the generic refusal — so failures do not
all use one single phrase, refuting the claim as stated. -/
theorem c9_counterexample :
    (query trFail vaAccept exEmpty fmtNone false q0).success = false
    ∧ (query trFail vaAccept exEmpty fmtNone true q0).success = false
    ∧ (query trFail vaAccept exEmpty fmtNone false q0).answer
        ≠ (query trFail vaAccept exEmpty fmtNone true q0).answer := by decide

/-- Claim C9 (corrected). Every failure answer is one of exactly two fixed
phrases — the generic refusal or the not-connected message — and in
particular never echoes the internal error description. -/
theorem c9_amended (T : Except String (Option String))
    (V : String → Except String (Bool × Option String))
    (E : String → Except String (List Record))
    (F : String → List Record → Except String (Option String))
    (c : Bool) (q : String)
    (h : (query T V E F c q).success = false) :
    (query T V E F c q).answer = failAnswer
    ∨ (query T V E F c q).answer = notConnectedAnswer :=
  (queryL_failure_shape T V E F c q h).2.2

/-- Witness for the amended C9 at a concrete failing run. -/
theorem c9_witness :
    (query trFail vaAccept exEmpty fmtNone true q0).answer = failAnswer
    ∨ (query trFail vaAccept exEmpty fmtNone true q0).answer = notConnectedAnswer :=
  c9_amended trFail vaAccept exEmpty fmtNone true q0 (by decide)

/-- Claim C6, counterexample. `Neo4jClient.execute_query` with a live driver
executes a query that was never validated and happily returns its records:
it does not reject execution in the absence of a prior successful
validation (the client keeps no validation state at all; its only guard is
the driver check). -/
theorem c6_counterexample :
    execute_query (some runEspresso) "MATCH (c:Coffee) RETURN c.name"
      = Except.ok [[("name", Val.scalar (Scalar.s "Espresso"))]] := rfl

/-- Claim C6 (corrected). `execute_query` rejects execution (raises
`ConnectionError`) exactly when invoked without a connected driver; when a
driver is present it runs any query, performing no prior-validation
check. -/
theorem c6_amended (run : String → Except DbErr (List Record)) (q : String) :
    execute_query none q = Except.error "Not connected to Neo4j. Call connect() first."
    ∧ ∀ rs, run q = Except.ok rs → execute_query (some run) q = Except.ok rs := by
  refine ⟨rfl, ?_⟩
  intro rs h
  simp [execute_query, h]

/-- Witness for the amended C6 at concrete inputs. -/
theorem c6_witness :
    execute_query none "RETURN 1" = Except.error "Not connected to Neo4j. Call connect() first."
    ∧ execute_query (some runEspresso) "RETURN 1"
        = Except.ok [[("name", Val.scalar (Scalar.s "Espresso"))]] :=
  ⟨(c6_amended runEspresso "RETURN 1").1,
   (c6_amended runEspresso "RETURN 1").2 _ rfl⟩

/-- Claim C2, evaluation at the failing input (code_bug). When the Translator
returns the exact sentinel `OUT_OF_SCOPE` (which rule 11 of the Gemini
prompt mandates for out-of-domain questions), `RAGEngine.query` does not
special-case it: the Validator IS invoked on the sentinel (a validate
event appears in the call log), and the outcome is the generic failure
answer — not a dedicated polite refusal. -/
theorem c2_sentinel_not_special_cased :
    (queryL trOut vaReject exEmpty fmtNone true "Tell me about cars").2
      = [Ev.tr "Tell me about cars", Ev.val "OUT_OF_SCOPE"]
    ∧ (query trOut vaReject exEmpty fmtNone true "Tell me about cars").success = false
    ∧ (query trOut vaReject exEmpty fmtNone true "Tell me about cars").answer = failAnswer
    ∧ (query trOut vaReject exEmpty fmtNone true "Tell me about cars").cypher
        = some "OUT_OF_SCOPE" := by decide

/-- Claim C3, counterexample. The Validator rejects the first candidate with
`badReason` while (per the claimed 3-attempt budget) attempts remain, yet
the call log shows no second Translator call at all: the single Translator
input is the raw question, which does not contain the rejection reason —
refuting the claimed feedback of the reason into a retry attempt. -/
theorem c3_counterexample :
    (queryL trBad vaReject exEmpty fmtNone true q0).2 = [Ev.tr q0, Ev.val "BAD QUERY"]
    ∧ (query trBad vaReject exEmpty fmtNone true q0).error
        = some ("Invalid Cypher: " ++ badReason)
    ∧ strContainsText q0 badReason = false := by decide

/-- Claim C3 (corrected). The pipeline never retries: for every oracle
choice, the Translator is invoked exactly once when connected (never when
not connected), and always with the raw question alone — no validator
rejection reason is ever part of any Translator input. -/
theorem c3_amended (T : Except String (Option String))
    (V : String → Except String (Bool × Option String))
    (E : String → Except String (List Record))
    (F : String → List Record → Except String (Option String))
    (c : Bool) (q : String) :
    (queryL T V E F c q).2.filter Ev.isTranslate = (if c then [Ev.tr q] else []) := by
  cases c with
  | false => rfl
  | true =>
    unfold queryL
    rcases T with e | oc
    · simp [Ev.isTranslate]
    rcases oc with _ | cy
    · simp [Ev.isTranslate]
    by_cases hcy : cy = ""
    · simp [hcy, Ev.isTranslate]
    rcases hV : V cy with e | bm
    · simp [hcy, hV, Ev.isTranslate]
    rcases bm with ⟨b, m⟩
    cases b with
    | false => simp [hcy, hV, Ev.isTranslate]
    | true =>
      rcases hE : E cy with e | rs
      · simp [hcy, hV, hE, Ev.isTranslate]
      cases hrs : rs.isEmpty with
      | true => simp [hcy, hV, hE, hrs, Ev.isTranslate]
      | false =>
        rcases hF : F q rs with e | ans
        · simp [hcy, hV, hE, hrs, hF, Ev.isTranslate]
        · simp [hcy, hV, hE, hrs, hF, Ev.isTranslate]

/-- Claim C1, counterexample. On a run where translation fails on attempt 1
(a recoverable failure with, per the claimed budget of 3, attempts
remaining), the pipeline returns terminal failure after exactly one
translation attempt — not three, and without any retry. -/
theorem c1_counterexample :
    (query trFail vaAccept exEmpty fmtNone true q0).success = false
    ∧ ((queryL trFail vaAccept exEmpty fmtNone true q0).2.filter Ev.isTranslate).length = 1
    ∧ ((queryL trFail vaAccept exEmpty fmtNone true q0).2.filter Ev.isTranslate).length ≠ 3 := by
  decide

/-- Claim C1 (corrected). The pipeline makes exactly one translation attempt
per connected question; on a translation failure or a validation failure it
does not retry, executes no query (no execute event), and returns a failure
outcome carrying the generation or validation error. -/
theorem c1_amended (T : Except String (Option String))
    (V : String → Except String (Bool × Option String))
    (E : String → Except String (List Record))
    (F : String → List Record → Except String (Option String))
    (q : String)
    (hfail : T = Except.ok none
      ∨ ∃ cy m, T = Except.ok (some cy) ∧ cy ≠ "" ∧ V cy = Except.ok (false, m)) :
    ((queryL T V E F true q).2.filter Ev.isTranslate).length = 1
    ∧ (queryL T V E F true q).1.success = false
    ∧ (queryL T V E F true q).2.filter Ev.isExecute = []
    ∧ ((queryL T V E F true q).1.error = some "Failed to generate Cypher query"
        ∨ ∃ m, (queryL T V E F true q).1.error = some ("Invalid Cypher: " ++ optText m)) := by
  rcases hfail with hT | ⟨cy, m, hT, hcy, hV⟩
  · subst hT
    refine ⟨?_, ?_, ?_, Or.inl ?_⟩ <;>
      simp [queryL, Ev.isTranslate, Ev.isExecute, List.filter]
  · subst hT
    refine ⟨?_, ?_, ?_, Or.inr ⟨m, ?_⟩⟩ <;>
      simp [queryL, hcy, hV, Ev.isTranslate, Ev.isExecute, List.filter]

/-- Witness for the amended C1 at a concrete rejected-candidate run. -/
theorem c1_witness :
    ((queryL trBad vaReject exEmpty fmtNone true q0).2.filter Ev.isTranslate).length = 1
    ∧ (queryL trBad vaReject exEmpty fmtNone true q0).1.success = false
    ∧ (queryL trBad vaReject exEmpty fmtNone true q0).2.filter Ev.isExecute = []
    ∧ ((queryL trBad vaReject exEmpty fmtNone true q0).1.error
          = some "Failed to generate Cypher query"
        ∨ ∃ m, (queryL trBad vaReject exEmpty fmtNone true q0).1.error
          = some ("Invalid Cypher: " ++ optText m)) :=
  c1_amended trBad vaReject exEmpty fmtNone q0
    (Or.inr ⟨"BAD QUERY", some badReason, rfl, by decide, rfl⟩)

/-- Claim C8, counterexample. On a record with a null-valued field the source
fallback formatter skips that field, while the reference definition worded
by the spec joins all fields: the two disagree. -/
theorem c8_counterexample :
    format_results_simple c8Input = "b: 1"
    ∧ specFallbackFormat c8Input = "a: None, b: 1"
    ∧ format_results_simple c8Input ≠ specFallbackFormat c8Input := by decide

/-- Claim C8 (corrected). For every non-empty result list, the source
fallback formatter equals the amended reference definition, which differs
from the spec wording only in that null-valued fields are omitted and a
record with no rendered field falls back to its stringification. -/
theorem c8_amended_equiv (results : List Record) (h : results ≠ []) :
    format_results_simple results = specFallbackFormatAmended results := by
  rcases results with _ | ⟨r1, _ | ⟨r2, rt⟩⟩
  · exact absurd rfl h
  · rcases r1 with _ | ⟨kv, _ | ⟨kv2, kt⟩⟩
    · rfl
    · rfl
    · show format_record (kv :: kv2 :: kt) = specRecordLineSkip (kv :: kv2 :: kt)
      exact format_record_eq _
  · have hlen : 1 < (r1 :: r2 :: rt).length := by simp
    show joinSep "\n" ((r1 :: r2 :: rt).enum.map fun p =>
        if 1 < (r1 :: r2 :: rt).length then toString (p.1 + 1) ++ ". " ++ format_record p.2
        else format_record p.2)
      = joinSep "\n" ((r1 :: r2 :: rt).enum.map fun p =>
        toString (p.1 + 1) ++ ". " ++ specRecordLineSkip p.2)
    rw [funext format_record_eq]
    simp only [if_pos hlen]

/-- Witness for the amended C8 at the example record given in the spec. -/
theorem c8_witness :
    format_results_simple [[("name", Val.scalar (Scalar.s "Espresso"))]]
      = specFallbackFormatAmended [[("name", Val.scalar (Scalar.s "Espresso"))]]
    ∧ format_results_simple [[("name", Val.scalar (Scalar.s "Espresso"))]]
      = "Result: Espresso" :=
  ⟨c8_amended_equiv _ (by decide), by decide⟩

end CoffeeRag
